import Mathlib

/-!
Verification of the patient-management front-end (`src/components/patients-table.tsx`
and `src/pages/app/home.tsx`) against its specification.

The TypeScript source is shallowly embedded: the zod form schema becomes a family of
pure field validators, the create/delete handlers become explicit state-transition
functions on a `TableState` record (network outcomes are passed in as an explicit
`Except` value, the way the asynchronous completion is delivered to the handler),
and the JSX cells become pure rendering functions.
-/

/-- JavaScript strings-as-prefix check used to phrase "the label starts with …". -/
def strStartsWith (p s : String) : Bool :=
  p.data.isPrefixOf s.data

/-- JS `doc.replace(/\D/g, "")`: strip every non-digit character. -/
def stripNonDigits (s : String) : String :=
  String.mk (s.data.filter Char.isDigit)

/-- Regex test `/^\d{11}$/.test(s)`: `s` is exactly 11 digit characters. -/
def cpfRegexTest (s : String) : Bool :=
  s.data.all Char.isDigit && s.length == 11

/-- Regex test `/^\d{9}$/.test(s)`: `s` is exactly 9 digit characters. -/
def rgRegexTest (s : String) : Bool :=
  s.data.all Char.isDigit && s.length == 9

/-- The refinement on `newPatientForm.document`: clean the input, then accept iff the
cleaned string matches the CPF or the RG pattern. -/
def documentRefine (doc : String) : Bool :=
  let cleanedDoc := stripNonDigits doc
  cpfRegexTest cleanedDoc || rgRegexTest cleanedDoc

/-- The refinement on `newPatientForm.phone`: `undefined` and the empty string are
JS-falsy and accepted (`if (!phone) return true`); otherwise the cleaned phone must
have 11 digits. -/
def phoneRefine (phone : Option String) : Bool :=
  match phone with
  | none => true
  | some p => if p = "" then true else (stripNonDigits p).length == 11

/-- The values of the new-patient form (`z.infer<typeof newPatientForm>`): `phone` is
optional, `age` is entered with `valueAsNumber` and constrained to an integer by the
schema, so it is embedded as `Int`. -/
structure NewPatientForm where
  name : String
  age : Int
  document : String
  phone : Option String
  deriving DecidableEq, Repr

/-- Rule `z.string().min(3)` on `name`: fewer than 3 characters yields the message
"Digite o nome completo.". -/
def nameError (name : String) : Option String :=
  if name.length < 3 then some "Digite o nome completo." else none

/-- Rule `z.number().int().min(0).max(120)` on `age`: the first failing check message
is what `errors.age.message` shows — "Idade inválida." below 0, "Idade muito alta."
above 120. On the `Int` embedding the `.int()` check always passes. -/
def ageError (age : Int) : Option String :=
  if age < 0 then some "Idade inválida."
  else if age > 120 then some "Idade muito alta."
  else none

/-- Error surface of the `document` refinement. -/
def documentError (doc : String) : Option String :=
  if documentRefine doc then none else some "Documento deve ser um CPF ou RG válido."

/-- Error surface of the `phone` refinement. -/
def phoneError (phone : Option String) : Option String :=
  if phoneRefine phone then none else some "Telefone deve ser um número de celular válido."

/-- The zod resolver lets `handleSubmit` invoke the submit handler iff every field
rule of `newPatientForm` passes. -/
def formValid (f : NewPatientForm) : Bool :=
  (nameError f.name).isNone && (ageError f.age).isNone &&
    (documentError f.document).isNone && (phoneError f.phone).isNone

/-- A patient row as consumed by the table (`PatientProps`). -/
structure Patient where
  id : String
  name : String
  age : Int
  document : String
  phone : Option String
  deriving DecidableEq, Repr

/-- Argument record of `registerPatient` as built in `handleCreateNewPatient`. -/
structure RegisterPayload where
  name : String
  age : Int
  document : String
  phone : Option String
  deriving DecidableEq, Repr

/-- A `toast(…)` notification call: `variant`, `title`, `description`. -/
structure Toast where
  variant : String
  title : String
  description : String
  deriving DecidableEq, Repr

/-- Remote-call outcome delivered to an `await`: success or an error value.
`ApiError.message` is the payload the error-translation helper renders. -/
structure ApiError where
  message : String
  deriving DecidableEq, Repr

/-- Modelled from the spec: `@/utils/axiosErrorHandler` is not among the provided
sources; per the spec it is "a shared error-translation helper" that converts a
network/remote error into a human-readable string. -/
def axiosErrorHandler (e : ApiError) : String :=
  e.message

/-- Observable state of the `PatientTable` component together with the externally
visible effects it has issued: the rendered list (owned by the parent, never written
here), the create-popover flag, the current form values (`none` once `reset()`
ran), and append-only logs of dispatched register calls, dispatched delete calls,
cache-key invalidations, and toasts. -/
structure TableState where
  patients : List Patient
  isPopoverOpen : Bool
  formValues : Option NewPatientForm
  registerCalls : List RegisterPayload
  deleteCalls : List String
  invalidatedKeys : List (List String)
  toasts : List Toast
  deriving DecidableEq, Repr

/-- The `registerPatient` mutation (`mutateAsync: registerPatientFn`): dispatch the
call; `onSuccess` invalidates the ["patients"] query key; a failure is re-thrown to
the caller (returned as `some e`). -/
def registerPatientFn (s : TableState) (p : RegisterPayload)
    (outcome : Except ApiError Unit) : TableState × Option ApiError :=
  let s1 := { s with registerCalls := s.registerCalls ++ [p] }
  match outcome with
  | .ok _ => ({ s1 with invalidatedKeys := s1.invalidatedKeys ++ [["patients"]] }, none)
  | .error e => (s1, some e)

/-- The `deletePatient` mutation (`mutateAsync: deletePatientFn`), same shape. -/
def deletePatientFn (s : TableState) (id : String)
    (outcome : Except ApiError Unit) : TableState × Option ApiError :=
  let s1 := { s with deleteCalls := s.deleteCalls ++ [id] }
  match outcome with
  | .ok _ => ({ s1 with invalidatedKeys := s1.invalidatedKeys ++ [["patients"]] }, none)
  | .error e => (s1, some e)

/-- Handler `handleCreateNewPatient(data)`: try the register call with the four entered
values; on success `reset()` the form, close the popover, toast success; on a caught
error toast the translated message and change nothing else. -/
def handleCreateNewPatient (s : TableState) (f : NewPatientForm)
    (outcome : Except ApiError Unit) : TableState :=
  match registerPatientFn s ⟨f.name, f.age, f.document, f.phone⟩ outcome with
  | (s1, none) =>
      { s1 with formValues := none, isPopoverOpen := false,
                toasts := s1.toasts ++ [⟨"default", "Pacientes", "Paciente cadastrado!"⟩] }
  | (s1, some e) =>
      { s1 with toasts := s1.toasts ++ [⟨"destructive", "Pacientes", axiosErrorHandler e⟩] }

/-- Handler `handleDeletePatient(id)`: try the delete call; toast success, or toast the
translated error message and change nothing else. -/
def handleDeletePatient (s : TableState) (id : String)
    (outcome : Except ApiError Unit) : TableState :=
  match deletePatientFn s id outcome with
  | (s1, none) =>
      { s1 with toasts := s1.toasts ++ [⟨"default", "Pacientes", "Paciente excluído"⟩] }
  | (s1, some e) =>
      { s1 with toasts := s1.toasts ++ [⟨"destructive", "Pacientes", axiosErrorHandler e⟩] }

/-- Submitting the form: `handleSubmit(handleCreateNewPatient)` runs the zod resolver
on the current values and calls the handler only when every field rule passes;
otherwise nothing is dispatched and the per-field errors (computed by the
`…Error` functions above) are surfaced. -/
def submitForm (s : TableState) (outcome : Except ApiError Unit) : TableState :=
  match s.formValues with
  | none => s
  | some f => if formValid f then handleCreateNewPatient s f outcome else s

/-- Dismissing the delete confirmation dialog (`AlertDialogCancel`) runs no handler. -/
def deleteCancel (s : TableState) : TableState :=
  s

/-- The cell of the `document` column: branch on the raw stored string `length`, mask,
and prepend the label. The two masks come from the external `masks-br` package and
are passed in as parameters. -/
def documentCell (rgMask cpfMask : String → String) (doc : String) : String :=
  if doc.length = 9 then "RG: " ++ rgMask doc else "CPF: " ++ cpfMask doc

/-- A navigation tile of the home page (`FeatureCard` props used by `Home`). -/
structure FeatureCard where
  title : String
  description : String
  toPath : String
  deriving DecidableEq, Repr

/-- The fetched user record as consumed by `Home` (`getUser` is external; only the
optional `crm` field is read, per the spec `{ crm?: … }`). -/
structure User where
  crm : Option String
  deriving DecidableEq, Repr

def agendaCard : FeatureCard :=
  ⟨"Agenda", "Organize e acompanhe seus compromissos diários de forma eficiente.",
    "schedule"⟩

def financeiroCard : FeatureCard :=
  ⟨"Financeiro",
    "Monitore suas finanças, controle suas receitas e despesas em um só lugar.",
    "financial"⟩

def pacientesCard : FeatureCard :=
  ⟨"Pacientes", "Mantenha registros detalhados e organizados dos seus pacientes.",
    "patients"⟩

def anamneseCard : FeatureCard :=
  ⟨"Anamnese",
    "Registre e acesse facilmente os históricos médicos dos seus pacientes.",
    "anamnesis"⟩

def receituarioCard : FeatureCard :=
  ⟨"Receituário", "Crie, gerencie e emita receitas médicas de forma prática e segura.",
    "prescription"⟩

/-- JS truthiness of `user?.crm` for an optional string field: `undefined` (either a
missing user or a missing field) and the empty string are falsy. -/
def crmTruthy (user : Option User) : Bool :=
  match user with
  | none => false
  | some u =>
      match u.crm with
      | none => false
      | some s => s != ""

/-- The feature tiles `Home` renders, in order; the Anamnese tile is guarded by
`user?.crm && …`. -/
def homeTiles (user : Option User) : List FeatureCard :=
  [agendaCard, financeiroCard, pacientesCard] ++
    (if crmTruthy user then [anamneseCard] else []) ++ [receituarioCard]

/-! ### General lemmas about the embedded operations -/

theorem stripNonDigits_all_digit (s : String) :
    (stripNonDigits s).data.all Char.isDigit = true := by
  rw [List.all_eq_true]
  intro c hc
  exact List.of_mem_filter hc

theorem stripNonDigits_length_le (s : String) :
    (stripNonDigits s).length ≤ s.length :=
  List.length_filter_le _ _

theorem strStartsWith_append {p q : String} (t : String)
    (h : p.data.isPrefixOf q.data = true) : strStartsWith p (q ++ t) = true := by
  have h1 : p.data <+: q.data := by rwa [ List.isPrefixOf_iff_prefix] at h
  have h2 : p.data <+: (q ++ t).data := by
    rw [String.data_append]
    exact h1.trans (List.prefix_append _ _)
  simpa [strStartsWith, List.isPrefixOf_iff_prefix] using h2

/-! ### The claims -/

/-- C1: the document validator accepts a string iff stripping every non-digit
character leaves exactly 11 or exactly 9 characters; it is a pure total function on
strings and rejects the empty string. -/
theorem documentRefine_spec :
    (∀ doc : String, documentRefine doc = true ↔
      ((stripNonDigits doc).length = 11 ∨ (stripNonDigits doc).length = 9)) ∧
    documentRefine "" = false := by
  refine ⟨fun doc => ?_, by decide⟩
  have hall := stripNonDigits_all_digit doc
  simp [documentRefine, cpfRegexTest, rgRegexTest, hall]

/-- C2: submitting the form when every field rule passes dispatches exactly one
register call carrying exactly the entered name, age, document and phone; on success
the form is cleared, the popover is closed, and `["patients"]` is invalidated exactly
once. -/
theorem submit_valid_form_success (s : TableState) (f : NewPatientForm)
    (hf : s.formValues = some f) (hv : formValid f = true) :
    (submitForm s (.ok ())).registerCalls
        = s.registerCalls ++ [⟨f.name, f.age, f.document, f.phone⟩] ∧
    (submitForm s (.ok ())).formValues = none ∧
    (submitForm s (.ok ())).isPopoverOpen = false ∧
    (submitForm s (.ok ())).invalidatedKeys = s.invalidatedKeys ++ [["patients"]] := by
  simp [submitForm, hf, hv, handleCreateNewPatient, registerPatientFn]

theorem submit_valid_form_success_witness :
    formValid ⟨"Maria Silva", 34, "12345678901", some "11987654321"⟩ = true ∧
    ((submitForm ⟨[], true, some ⟨"Maria Silva", 34, "12345678901", some "11987654321"⟩,
        [], [], [], []⟩ (.ok ())).registerCalls
        = [] ++ [⟨"Maria Silva", 34, "12345678901", some "11987654321"⟩] ∧
      (submitForm ⟨[], true, some ⟨"Maria Silva", 34, "12345678901", some "11987654321"⟩,
        [], [], [], []⟩ (.ok ())).formValues = none ∧
      (submitForm ⟨[], true, some ⟨"Maria Silva", 34, "12345678901", some "11987654321"⟩,
        [], [], [], []⟩ (.ok ())).isPopoverOpen = false ∧
      (submitForm ⟨[], true, some ⟨"Maria Silva", 34, "12345678901", some "11987654321"⟩,
        [], [], [], []⟩ (.ok ())).invalidatedKeys = [] ++ [["patients"]]) :=
  ⟨by decide,
   submit_valid_form_success
     ⟨[], true, some ⟨"Maria Silva", 34, "12345678901", some "11987654321"⟩,
       [], [], [], []⟩
     ⟨"Maria Silva", 34, "12345678901", some "11987654321"⟩ rfl (by decide)⟩

/-- C3: confirming the deletion dialog dispatches exactly one delete call with the
id of the row (whatever the outcome) and, on success, invalidates ["patients"] exactly
once; canceling the dialog leaves the state untouched, so no delete call is
dispatched. -/
theorem delete_confirm_dispatch (s : TableState) (id : String) (e : ApiError) :
    (handleDeletePatient s id (.ok ())).deleteCalls = s.deleteCalls ++ [id] ∧
    (handleDeletePatient s id (.ok ())).invalidatedKeys
        = s.invalidatedKeys ++ [["patients"]] ∧
    (handleDeletePatient s id (.error e)).deleteCalls = s.deleteCalls ++ [id] ∧
    deleteCancel s = s := by
  refine ⟨?_, ?_, ?_, rfl⟩ <;> simp [handleDeletePatient, deletePatientFn]

/-- C4: a failing field rule blocks submission entirely (the state is unchanged, so
no register call is dispatched), and the per-field messages are exactly the specified
ones: a name shorter than 3 characters yields "Digite o nome completo.", age 121
yields "Idade muito alta.", and age -1 yields "Idade inválida.". -/
theorem invalid_field_blocks_submission (s : TableState) (f : NewPatientForm)
    (o : Except ApiError Unit) (hf : s.formValues = some f)
    (hbad : f.name.length < 3 ∨ f.age = 121 ∨ f.age = -1) :
    (submitForm s o).registerCalls = s.registerCalls ∧
    submitForm s o = s ∧
    (f.name.length < 3 → nameError f.name = some "Digite o nome completo.") ∧
    ageError 121 = some "Idade muito alta." ∧
    ageError (-1) = some "Idade inválida." := by
  have hinv : formValid f = false := by
    rcases hbad with h | h | h
    · simp [formValid, nameError, h]
    · norm_num [formValid, ageError, h]
    · norm_num [formValid, ageError, h]
  refine ⟨?_, ?_, fun h => ?_, by decide, by decide⟩
  · simp [submitForm, hf, hinv]
  · simp [submitForm, hf, hinv]
  · simp [nameError, h]

theorem invalid_field_blocks_submission_witness :
    ("Jo" : String).length < 3 ∧
    ((submitForm ⟨[], true, some ⟨"Jo", 34, "12345678901", none⟩, [], [], [], []⟩
        (.ok ())).registerCalls = [] ∧
      submitForm ⟨[], true, some ⟨"Jo", 34, "12345678901", none⟩, [], [], [], []⟩
        (.ok ()) = ⟨[], true, some ⟨"Jo", 34, "12345678901", none⟩, [], [], [], []⟩ ∧
      (("Jo" : String).length < 3 → nameError "Jo" = some "Digite o nome completo.") ∧
      ageError 121 = some "Idade muito alta." ∧
      ageError (-1) = some "Idade inválida.") :=
  ⟨by decide, invalid_field_blocks_submission _ _ _ rfl (Or.inl (by decide))⟩

/-- C5 (amended): the rendered document label starts with "RG:" when the raw stored
string has length exactly 9 and with "CPF:" otherwise; in particular every document
of digit-length 11 is labeled "CPF:", while a document of digit-length 9 is labeled
"RG:" only when it is stored as the bare 9-digit string. -/
theorem document_cell_label (rgMask cpfMask : String → String) (doc : String) :
    (doc.length = 9 → strStartsWith "RG:" (documentCell rgMask cpfMask doc) = true) ∧
    (doc.length ≠ 9 → strStartsWith "CPF:" (documentCell rgMask cpfMask doc) = true) ∧
    ((stripNonDigits doc).length = 11 →
      strStartsWith "CPF:" (documentCell rgMask cpfMask doc) = true) := by
  refine ⟨fun h => ?_, fun h => ?_, fun h => ?_⟩
  · rw [documentCell, if_pos h]
    exact strStartsWith_append _ (by decide)
  · rw [documentCell, if_neg h]
    exact strStartsWith_append _ (by decide)
  · have hne : doc.length ≠ 9 := by
      have hle := stripNonDigits_length_le doc
      omega
    rw [documentCell, if_neg hne]
    exact strStartsWith_append _ (by decide)

/-- C5: counterexample to the claim as stated — `"123-456-789"` has digit-length 9,
yet its rendered label does not start with "RG:" (it starts with "CPF:"), because the
cell branches on the raw string length (11 here), not the digit count. -/
theorem document_cell_label_counterexample :
    (stripNonDigits "123-456-789").length = 9 ∧
    strStartsWith "RG:" (documentCell id id "123-456-789") = false ∧
    strStartsWith "CPF:" (documentCell id id "123-456-789") = true := by
  refine ⟨by decide, by decide, by decide⟩

theorem document_cell_label_witness :
    (("12.345.678-9" : String).length ≠ 9 →
      strStartsWith "CPF:" (documentCell id id "12.345.678-9") = true) ∧
    ((stripNonDigits "98765432109" : String).length = 11 →
      strStartsWith "CPF:" (documentCell id id "98765432109") = true) ∧
    (("123456789" : String).length = 9 →
      strStartsWith "RG:" (documentCell id id "123456789") = true) :=
  ⟨(document_cell_label id id "12.345.678-9").2.1,
   (document_cell_label id id "98765432109").2.2,
   (document_cell_label id id "123456789").1⟩

/-- C6: when the register call or the delete call fails, the caught error is
translated by `axiosErrorHandler` and shown as a destructive toast; the attempt is
dispatched exactly once (no automatic retry), and everything else is intact — the
form keeps the entered values, the popover flag is unchanged, the rendered list is
unchanged, and no cache invalidation happens. -/
theorem mutation_failure_preserves_state (s : TableState) (f : NewPatientForm)
    (e : ApiError) (id : String) (hf : s.formValues = some f)
    (hv : formValid f = true) :
    (submitForm s (.error e)).toasts
        = s.toasts ++ [⟨"destructive", "Pacientes", axiosErrorHandler e⟩] ∧
    (submitForm s (.error e)).formValues = some f ∧
    (submitForm s (.error e)).isPopoverOpen = s.isPopoverOpen ∧
    (submitForm s (.error e)).invalidatedKeys = s.invalidatedKeys ∧
    (submitForm s (.error e)).patients = s.patients ∧
    (submitForm s (.error e)).registerCalls
        = s.registerCalls ++ [⟨f.name, f.age, f.document, f.phone⟩] ∧
    (handleDeletePatient s id (.error e)).toasts
        = s.toasts ++ [⟨"destructive", "Pacientes", axiosErrorHandler e⟩] ∧
    (handleDeletePatient s id (.error e)).invalidatedKeys = s.invalidatedKeys ∧
    (handleDeletePatient s id (.error e)).patients = s.patients ∧
    (handleDeletePatient s id (.error e)).formValues = s.formValues ∧
    (handleDeletePatient s id (.error e)).isPopoverOpen = s.isPopoverOpen ∧
    (handleDeletePatient s id (.error e)).deleteCalls = s.deleteCalls ++ [id] := by
  simp [submitForm, hf, hv, handleCreateNewPatient, registerPatientFn,
    handleDeletePatient, deletePatientFn]

theorem mutation_failure_preserves_state_witness :
    formValid ⟨"Ana Souza", 40, "123456789", none⟩ = true ∧
    (submitForm ⟨[], true, some ⟨"Ana Souza", 40, "123456789", none⟩, [], [], [], []⟩
        (.error ⟨"Network Error"⟩)).formValues
      = some ⟨"Ana Souza", 40, "123456789", none⟩ ∧
    (submitForm ⟨[], true, some ⟨"Ana Souza", 40, "123456789", none⟩, [], [], [], []⟩
        (.error ⟨"Network Error"⟩)).invalidatedKeys
      = (⟨[], true, some ⟨"Ana Souza", 40, "123456789", none⟩, [], [], [], []⟩
          : TableState).invalidatedKeys :=
  ⟨by decide,
   (mutation_failure_preserves_state _ ⟨"Ana Souza", 40, "123456789", none⟩
      ⟨"Network Error"⟩ "p1" rfl (by decide)).2.1,
   (mutation_failure_preserves_state _ ⟨"Ana Souza", 40, "123456789", none⟩
      ⟨"Network Error"⟩ "p1" rfl (by decide)).2.2.2.1⟩

/-- C7 (amended): the Anamnese tile is rendered iff the `crm` of the fetched user is
present and non-empty (JS-truthy); the other four feature tiles are rendered
unconditionally. -/
theorem anamnese_gate (user : Option User) :
    (anamneseCard ∈ homeTiles user ↔ crmTruthy user = true) ∧
    agendaCard ∈ homeTiles user ∧ financeiroCard ∈ homeTiles user ∧
    pacientesCard ∈ homeTiles user ∧ receituarioCard ∈ homeTiles user := by
  cases hcrm : crmTruthy user <;> simp [homeTiles, hcrm]
  decide

/-- C7: counterexample to the claim as stated — a fetched user record whose `crm`
field is present but equal to the empty string carries a crm value, yet the Anamnese
tile is not rendered, because the gate is the JS truthiness of `user?.crm`. -/
theorem anamnese_gate_counterexample :
    (User.mk (some "")).crm.isSome = true ∧
    anamneseCard ∉ homeTiles (some (User.mk (some ""))) := by
  exact ⟨rfl, by decide⟩

/-- C8: the phone rule treats the empty string exactly like an absent value — both
are accepted and produce no field error, so registration is never blocked on an
absent or empty phone; a non-empty phone is accepted exactly when it strips to 11
digits. -/
theorem phoneRefine_spec :
    (∀ p : Option String, (p = none ∨ p = some "") →
      phoneRefine p = true ∧ phoneError p = none) ∧
    (∀ q : String, q ≠ "" →
      phoneRefine (some q) = ((stripNonDigits q).length == 11)) := by
  constructor
  · rintro p (rfl | rfl) <;> exact ⟨rfl, rfl⟩
  · intro q hq
    simp [phoneRefine, hq]

theorem phoneRefine_spec_witness :
    (phoneRefine (some "") = true ∧ phoneError (some "") = none) ∧
    (phoneRefine none = true ∧ phoneError none = none) ∧
    phoneRefine (some "(11) 98765-4321")
      = ((stripNonDigits "(11) 98765-4321").length == 11) :=
  ⟨phoneRefine_spec.1 (some "") (Or.inr rfl),
   phoneRefine_spec.1 none (Or.inl rfl),
   phoneRefine_spec.2 "(11) 98765-4321" (by decide)⟩

/-- C9: the document cell branches on the character length of the raw stored string:
every stored document whose raw length is not exactly 9 — including strings with
separators or of invalid length — is labeled "CPF:". -/
theorem document_cell_raw_length_branch (rgMask cpfMask : String → String)
    (doc : String) (h : doc.length ≠ 9) :
    strStartsWith "CPF:" (documentCell rgMask cpfMask doc) = true := by
  rw [documentCell, if_neg h]
  exact strStartsWith_append _ (by decide)

theorem document_cell_raw_length_branch_witness :
    ("111.222.333" : String).length ≠ 9 ∧
    strStartsWith "CPF:" (documentCell id id "111.222.333") = true :=
  ⟨by decide, document_cell_raw_length_branch id id "111.222.333" (by decide)⟩

/-- C10: an accepted submission forwards the document and phone fields to the
register call verbatim: the payload appended to the dispatch log carries the raw
form values, not their digit-stripped normal forms. -/
theorem payload_forwards_raw_values (s : TableState) (f : NewPatientForm)
    (o : Except ApiError Unit) (hf : s.formValues = some f)
    (hv : formValid f = true) :
    (submitForm s o).registerCalls
        = s.registerCalls ++ [⟨f.name, f.age, f.document, f.phone⟩] := by
  cases o <;> simp [submitForm, hf, hv, handleCreateNewPatient, registerPatientFn]

theorem payload_forwards_raw_values_witness :
    formValid ⟨"Carlos Lima", 52, "12345678-9", none⟩ = true ∧
    (submitForm ⟨[], true, some ⟨"Carlos Lima", 52, "12345678-9", none⟩,
        [], [], [], []⟩ (.ok ())).registerCalls
      = [] ++ [⟨"Carlos Lima", 52, "12345678-9", none⟩] ∧
    "12345678-9" ≠ stripNonDigits "12345678-9" :=
  ⟨by decide,
   payload_forwards_raw_values _ ⟨"Carlos Lima", 52, "12345678-9", none⟩ _ rfl
     (by decide),
   by decide⟩
